import Mathlib

/-!
# Verification of the chat-with-data tool layer (`app.py`)

A shallow embedding of the core of `app.py`: the SQL safety gate
(`is_query_safe`), the database query tool (`query_database`), the support
ticket tool (`create_support_ticket`), the agent tool-dispatch loop, and the
session history handling.  External services (the sqlite engine, the GitHub
HTTP API, the generative-model service) are modelled as environments the
embedded functions consume; Python exceptions are modelled explicitly with
`Except`, so that "never raises past its own boundary" is a provable
statement rather than a typing accident.  JSON serialisation (`json.dumps`,
`DataFrame.to_json`) is abstracted to structured output constructors that
record exactly which payload shape the Python code builds.
-/

namespace ChatWithData

/-- Python exceptions that can arise inside the tool bodies: `sqlite3.Error`,
`requests.exceptions.RequestException`, and any other `Exception` (e.g. the
`KeyError` from `issue_data["number"]`). -/
inductive PyExn where
  | sqliteError (msg : String)
  | requestException (msg : String)
  | otherException
deriving DecidableEq

/-- Python's `str.lower()`: lower-case each character (the banned keywords and
SQL text are basic latin, where Python and this map agree). -/
def pyLower (s : String) : String :=
  ⟨s.data.map Char.toLower⟩

/-- Python's `needle in hay` starts-with helper: does `hay` start with `needle`? -/
def startsWithL : List Char → List Char → Bool
  | _, [] => true
  | [], _ :: _ => false
  | h :: hs, n :: ns => h == n && startsWithL hs ns

/-- Python's substring test `needle in hay`, over the character lists. -/
def containsSubL (needle : List Char) : List Char → Bool
  | [] => startsWithL [] needle
  | c :: hs => startsWithL (c :: hs) needle || containsSubL needle hs

/-- Python's `needle in hay` on strings (substring containment). -/
def strContainsSub (hay needle : String) : Bool :=
  containsSubL needle.toList hay.toList

/-- `BANNED_SQL_KEYWORDS` from `app.py` lines 44-47. -/
def BANNED_SQL_KEYWORDS : List String :=
  ["delete", "drop", "update", "insert", "alter",
   "truncate", "grant", "revoke", "shutdown"]

/-- `is_query_safe` (`app.py` lines 49-56): lower-case the query and deny if
any banned keyword occurs as a substring. -/
def is_query_safe (sql_query : String) : Bool :=
  !(BANNED_SQL_KEYWORDS.any fun keyword => strContainsSub (pyLower sql_query) keyword)

/-- A fetched row, abstracting the tuple sqlite returns. -/
abbrev Row := List String

/-- Outcome of `cur.execute(sql)` / `cur.fetchall()` / `cur.description` as one
atomic interaction with the sqlite engine: either column descriptions plus
rows, or a raised exception. -/
inductive ExecOutcome where
  | ok (description : List String) (rows : List Row)
  | raise (e : PyExn)

/-- The environment `query_database` runs against: whether `movies.db` exists
(`os.path.exists`), and what executing a statement on it yields. -/
structure QueryEnv where
  fileExists : Bool
  exec : String → ExecOutcome

/-- The payload shapes `query_database` can serialise
(`json.dumps({"error": ...})`, `json.dumps({"message": ...})`,
`df.to_json(orient="records")` with an optional non-JSON truncation note
appended). -/
inductive QueryOutput where
  | error (msg : String)
  | message (msg : String)
  | records (rows : List Row) (truncationNote : Option String)
deriving DecidableEq

/-- Whether the sqlite connection was opened, and whether it was closed,
during one `query_database` call. -/
structure ConnTrace where
  opened : Bool
  closed : Bool
deriving DecidableEq

/-- The `try:` block of `query_database` (`app.py` lines 76-100): connect,
execute, fetch; on zero description columns close and return the message
object; otherwise close, shape the rows and truncate past 20.  An exception
escapes the block (to be caught below) with the connection still open. -/
def query_tryBody (env : QueryEnv) (sql_query : String) :
    Except PyExn QueryOutput × ConnTrace :=
  match env.exec sql_query with
  | .raise e => (.error e, ⟨true, false⟩)
  | .ok description rows =>
    if description.isEmpty then
      (.ok (.message "Query executed, but no results to return."), ⟨true, true⟩)
    else if rows.length > 20 then
      (.ok (.records (rows.take 20)
        (some ("\n... (truncated, " ++ toString (rows.length - 20) ++ " more rows)"))),
       ⟨true, true⟩)
    else
      (.ok (.records rows none), ⟨true, true⟩)

/-- The `except sqlite3.Error` and `except Exception` clauses of
`query_database` (`app.py` lines 102-107), applied to the outcome of the
`try:` block. -/
def query_handlers (r : Except PyExn QueryOutput × ConnTrace) :
    Except PyExn QueryOutput × ConnTrace :=
  match r with
  | (.ok o, t) => (.ok o, t)
  | (.error (.sqliteError m), t) => (.ok (.error ("An error occurred: " ++ m)), t)
  | (.error _, t) => (.ok (.error "An unexpected error occurred."), t)

/-- `query_database` (`app.py` lines 59-107) with the connection trace:
safety gate, file-existence check, then the `try:` block with its
`except sqlite3.Error` and `except Exception` handlers.  The result is
`Except.ok` of a payload when the Python function returns a string; an
`Except.error` would mean an exception escaped the function. -/
def query_databaseT (env : QueryEnv) (sql_query : String) :
    Except PyExn QueryOutput × ConnTrace :=
  if !(is_query_safe sql_query) then
    (.ok (.error "Query is not allowed. Only read-only SELECT statements are permitted."),
     ⟨false, false⟩)
  else if !env.fileExists then
    (.ok (.error "Database file 'movies.db' not found. Please run setup.py."),
     ⟨false, false⟩)
  else
    query_handlers (query_tryBody env sql_query)

/-- The value `query_database` returns. -/
def query_database (env : QueryEnv) (sql_query : String) : Except PyExn QueryOutput :=
  (query_databaseT env sql_query).1

/-- The connection open/close trace of one `query_database` call. -/
def query_connTrace (env : QueryEnv) (sql_query : String) : ConnTrace :=
  (query_databaseT env sql_query).2

/-- Outcome of `requests.post(api_url, json=data, headers=headers)` together
with the fields the success branch reads from `response.json()`: the HTTP
status, the raw body text, and the optional `number` / `html_url` JSON fields
(absent fields make the `issue_data[...]` lookups raise). -/
inductive HttpOutcome where
  | response (status : Nat) (text : String) (number : Option Nat) (html_url : Option String)
  | raise (e : PyExn)

/-- The environment `create_support_ticket` runs against: the two Streamlit
secrets (absent when the key is not in `st.secrets`) and the HTTP POST
behaviour, as a function of the url, bearer token, title and body sent. -/
structure TicketEnv where
  github_token : Option String
  github_repo : Option String
  post : String → String → String → String → HttpOutcome

/-- The payload shapes `create_support_ticket` serialises with `json.dumps`:
the success object, a plain `{"error": ...}` object, or the non-201 object
carrying `"error"` and `"details"` fields. -/
inductive TicketOutput where
  | success (ticket_id ticket_url title message : String)
  | error (msg : String)
  | errorDetails (msg details : String)
deriving DecidableEq

/-- `app.py` line 129: the GitHub issue-creation endpoint for a repository. -/
def apiUrl (repo : String) : String :=
  "https://api.github.com/repos/" ++ repo ++ "/issues"

/-- The response handling inside the `try:` block of `create_support_ticket`
(`app.py` lines 142-167): on 201 read `number` and `html_url` (raising if
absent) and build the success payload; otherwise build the error payload
carrying the status code and raw body. -/
def ticket_tryBody (resp : HttpOutcome) (title : String) : Except PyExn TicketOutput :=
  match resp with
  | .raise e => .error e
  | .response status text number html_url =>
    if status == 201 then
      match number, html_url with
      | some ticket_id, some ticket_url =>
        .ok (.success ("GH-" ++ toString ticket_id) ticket_url title
          ("Support ticket GH-" ++ toString ticket_id ++
           " has been successfully created. A human will review it at: " ++ ticket_url))
      | _, _ => .error .otherException
    else
      .ok (.errorDetails
        ("Failed to create ticket. GitHub API responded with status " ++ toString status ++ ".")
        text)

/-- The `except requests.exceptions.RequestException` and `except Exception`
clauses of `create_support_ticket` (`app.py` lines 169-178), applied to the
outcome of the `try:` block. -/
def ticket_handlers (r : Except PyExn TicketOutput) : Except PyExn TicketOutput :=
  match r with
  | .ok o => .ok o
  | .error (.requestException _) =>
    .ok (.error "Failed to create ticket: A network error occurred.")
  | .error _ =>
    .ok (.error "An unexpected error occurred while creating the ticket.")

/-- `create_support_ticket` (`app.py` lines 110-178) with a flag recording
whether the POST request was issued: the secrets check, then the `try:` block
with its `except requests.exceptions.RequestException` and `except Exception`
handlers. -/
def create_support_ticketT (env : TicketEnv) (title description : String) :
    Except PyExn TicketOutput × Bool :=
  if env.github_token.isNone || env.github_repo.isNone then
    (.ok (.error "Failed to create ticket: Server is missing GitHub configuration."), false)
  else
    let token := env.github_token.getD ""
    let repo_url := env.github_repo.getD ""
    (ticket_handlers (ticket_tryBody (env.post (apiUrl repo_url) token title description) title),
     true)

/-- The value `create_support_ticket` returns. -/
def create_support_ticket (env : TicketEnv) (title description : String) :
    Except PyExn TicketOutput :=
  (create_support_ticketT env title description).1

/-- Whether one `create_support_ticket` call issued the POST request. -/
def ticket_postIssued (env : TicketEnv) (title description : String) : Bool :=
  (create_support_ticketT env title description).2

/-! ## Session history (`st.session_state.messages`) -/

/-- One entry of `st.session_state.messages`: `{"role": ..., "parts": ...}`. -/
structure ChatMsg where
  role : String
  parts : String
deriving DecidableEq

/-- The display loop (`app.py` lines 280-283): every stored message is shown
except those with role `"function"`. -/
def displayedMessages (messages : List ChatMsg) : List ChatMsg :=
  messages.filter fun msg => !(msg.role == "function")

/-- `app.py` line 288: the submitted prompt is appended with role `"user"`. -/
def appendUserPrompt (messages : List ChatMsg) (prompt : String) : List ChatMsg :=
  messages ++ [⟨"user", prompt⟩]

/-- `app.py` line 295: the chat session is created from
`st.session_state.messages[:-1]` — everything but the new prompt. -/
def historyForModel (messages : List ChatMsg) : List ChatMsg :=
  messages.dropLast

/-- `app.py` line 356: the final model response is appended with role
`"model"`. -/
def appendFinalResponse (messages : List ChatMsg) (final_response : String) : List ChatMsg :=
  messages ++ [⟨"model", final_response⟩]

/-! ## Agent loop (`app.py` lines 306-346) -/

/-- One content part of a model response: either a function-call request or
terminal text (`response.candidates[0].content.parts[0]`). -/
inductive Part where
  | functionCall (name : String) (args : List (String × String))
  | text (s : String)
deriving DecidableEq

/-- The result of dispatching one tool call, as fed back to the model
(`json.loads(function_result)` wrapped in a function response). -/
inductive ToolResult where
  | query (o : Except PyExn QueryOutput)
  | ticket (o : Except PyExn TicketOutput)

/-- A message the loop sends back to the model after examining a
function-call part: a function response for a registered tool, or the
corrective `"Error: Unknown tool '...'"` text for an unregistered one. -/
inductive SentMsg where
  | functionResponse (name : String) (content : ToolResult)
  | corrective (name : String)

/-- The keys of the `tools` dict (`app.py` lines 236-239). -/
def toolNames : List String := ["query_database", "create_support_ticket"]

/-- The environments behind both registered tools. -/
structure AgentEnv where
  qenv : QueryEnv
  tenv : TicketEnv

/-- Keyword-argument lookup for `tool_function(**args)`. -/
def getArg (args : List (String × String)) (key : String) : String :=
  match args.find? fun p => p.1 == key with
  | some p => p.2
  | none => ""

/-- Dispatch `tools[function_name](**args)` for a registered tool name. -/
def runTool (env : AgentEnv) (name : String) (args : List (String × String)) : ToolResult :=
  if name == "query_database" then
    .query (query_database env.qenv (getArg args "sql_query"))
  else
    .ticket (create_support_ticket env.tenv (getArg args "title") (getArg args "description"))

/-- How a run of the agent loop ends: with the first terminal text part, or
with the fuel exhausted (the Python loop has no iteration bound; fuel makes
the recursion total without cutting any finite behaviour).  Both record the
messages the loop sent back to the model. -/
inductive LoopResult where
  | finalText (s : String) (sent : List SentMsg)
  | fuelExhausted (sent : List SentMsg)

/-- The `while response_part.function_call:` loop (`app.py` lines 306-346).
`oracle i` is the part of the model's `i`-th response (`oracle 0` answers the
initial prompt); a function-call part is dispatched through the registry when
registered, else answered with one corrective message, and in both cases the
loop continues with the model's next response. -/
def agentLoop (env : AgentEnv) (oracle : Nat → Part) :
    Nat → Nat → List SentMsg → LoopResult
  | _, 0, sent => .fuelExhausted sent
  | i, fuel + 1, sent =>
    match oracle i with
    | .text s => .finalText s sent
    | .functionCall function_name args =>
      if toolNames.contains function_name then
        agentLoop env oracle (i + 1) fuel
          (sent ++ [.functionResponse function_name (runTool env function_name args)])
      else
        agentLoop env oracle (i + 1) fuel (sent ++ [.corrective function_name])

/-- `app.py` lines 349-353: the displayed final response, with the fallback
when the terminal part's text is empty. -/
def finalResponseText (s : String) : String :=
  if !s.isEmpty then s else "Sorry, I'm not sure how to respond to that."

/-! ## Helper lemmas -/

/-- The `except` clauses of `query_database` convert every exception, so the
handled outcome is always a returned payload. -/
theorem query_handlers_total (r : Except PyExn QueryOutput × ConnTrace) :
    ∃ o, (query_handlers r).1 = Except.ok o := by
  obtain ⟨e, t⟩ := r
  cases e with
  | ok o => exact ⟨o, rfl⟩
  | error ex =>
    cases ex with
    | sqliteError m => exact ⟨_, rfl⟩
    | requestException m => exact ⟨_, rfl⟩
    | otherException => exact ⟨_, rfl⟩

/-- The `except` clauses of `create_support_ticket` convert every exception,
so the handled outcome is always a returned payload. -/
theorem ticket_handlers_total (r : Except PyExn TicketOutput) :
    ∃ o, ticket_handlers r = Except.ok o := by
  cases r with
  | ok o => exact ⟨o, rfl⟩
  | error ex =>
    cases ex with
    | sqliteError m => exact ⟨_, rfl⟩
    | requestException m => exact ⟨_, rfl⟩
    | otherException => exact ⟨_, rfl⟩

/-! ## Claim theorems -/

/-- **C1.** Every SQL string containing a denylisted keyword as a
(case-insensitive) substring is denied by `is_query_safe`, and
`query_database` returns the structured not-allowed error payload for it in
every environment — in particular regardless of whether `movies.db` exists,
since the safety check precedes the file-existence check. -/
theorem safety_gate_denies_banned (sql_query : String)
    (h : ∃ kw ∈ BANNED_SQL_KEYWORDS, strContainsSub (pyLower sql_query) kw = true) :
    is_query_safe sql_query = false ∧
    ∀ env : QueryEnv, query_database env sql_query =
      .ok (.error "Query is not allowed. Only read-only SELECT statements are permitted.") := by
  obtain ⟨kw, hmem, hsub⟩ := h
  have hany : (BANNED_SQL_KEYWORDS.any fun keyword =>
      strContainsSub (pyLower sql_query) keyword) = true :=
    List.any_eq_true.mpr ⟨kw, hmem, hsub⟩
  have hsafe : is_query_safe sql_query = false := by
    simp [is_query_safe, hany]
  refine ⟨hsafe, fun env => ?_⟩
  simp [query_database, query_databaseT, hsafe]

/-- Environment with no database file; its execution behaviour is never
reached. -/
def noDbEnv : QueryEnv := ⟨false, fun _ => .raise .otherException⟩

/-- Witness for **C1**: `"DROP TABLE movies"` contains the banned keyword
`"drop"`, is denied, and yields the not-allowed error payload even though the
database file is absent. -/
theorem safety_gate_denies_banned_witness :
    (∃ kw ∈ BANNED_SQL_KEYWORDS, strContainsSub (pyLower "DROP TABLE movies") kw = true) ∧
    is_query_safe "DROP TABLE movies" = false ∧
    query_database noDbEnv "DROP TABLE movies" =
      .ok (.error "Query is not allowed. Only read-only SELECT statements are permitted.") :=
  ⟨by decide, (safety_gate_denies_banned "DROP TABLE movies" (by decide)).1,
   (safety_gate_denies_banned "DROP TABLE movies" (by decide)).2 noDbEnv⟩

/-- **C2.** Both tools are total at their boundary: in every environment and
on every string input the result is a returned payload (`Except.ok`), never a
propagated exception. -/
theorem tools_never_raise :
    (∀ (env : QueryEnv) (sql_query : String), ∃ o, query_database env sql_query = Except.ok o) ∧
    (∀ (env : TicketEnv) (title description : String),
      ∃ o, create_support_ticket env title description = Except.ok o) := by
  constructor
  · intro env sql_query
    unfold query_database query_databaseT
    split
    · exact ⟨_, rfl⟩
    · split
      · exact ⟨_, rfl⟩
      · exact query_handlers_total _
  · intro env title description
    unfold create_support_ticket create_support_ticketT
    split
    · exact ⟨_, rfl⟩
    · exact ticket_handlers_total _

/-- The `except` clauses never touch the connection: the close trace of the
`try:` block is the close trace of the whole call. -/
theorem query_handlers_trace (r : Except PyExn QueryOutput × ConnTrace) :
    (query_handlers r).2 = r.2 := by
  obtain ⟨e, t⟩ := r
  cases e with
  | ok o => rfl
  | error ex => cases ex <;> rfl

/-- **C3.** For a safe query on an existing database whose execution yields a
result set: with more than 20 rows the output is exactly the first 20 rows
(a prefix, in result order) plus the note counting the omitted rows; with at
most 20 rows the output is all rows with no truncation note. -/
theorem query_truncates_at_20 (env : QueryEnv) (sql_query : String)
    (description : List String) (rows : List Row)
    (hsafe : is_query_safe sql_query = true) (hfile : env.fileExists = true)
    (hexec : env.exec sql_query = .ok description rows) (hdesc : description ≠ []) :
    (20 < rows.length →
      query_database env sql_query =
        .ok (.records (rows.take 20)
          (some ("\n... (truncated, " ++ toString (rows.length - 20) ++ " more rows)"))) ∧
      (rows.take 20).length = 20 ∧ rows.take 20 ++ rows.drop 20 = rows) ∧
    (rows.length ≤ 20 →
      query_database env sql_query = .ok (.records rows none)) := by
  have hne : description.isEmpty = false := by
    cases description
    · exact absurd rfl hdesc
    · rfl
  constructor
  · intro hlen
    refine ⟨?_, ?_, List.take_append_drop 20 rows⟩
    · simp [query_database, query_databaseT, hsafe, hfile, query_tryBody, hexec, hne,
        query_handlers, hlen]
    · simp [List.length_take]
      omega
  · intro hlen
    have hgt : ¬ (rows.length > 20) := by omega
    simp [query_database, query_databaseT, hsafe, hfile, query_tryBody, hexec, hne,
      query_handlers, hgt]

/-- Environment returning 25 one-column rows. -/
def rowsEnv25 : QueryEnv := ⟨true, fun _ => .ok ["Title"] (List.replicate 25 ["Inception"])⟩

/-- Environment returning 3 one-column rows. -/
def rowsEnv3 : QueryEnv := ⟨true, fun _ => .ok ["Title"] (List.replicate 3 ["Inception"])⟩

/-- Witness for **C3**: 25 result rows are cut to the first 20 with a
"5 more rows" note; 3 result rows pass through without a note. -/
theorem query_truncates_at_20_witness :
    20 < (List.replicate 25 (["Inception"] : Row)).length ∧
    query_database rowsEnv25 "SELECT Title FROM movies" =
      .ok (.records ((List.replicate 25 (["Inception"] : Row)).take 20)
        (some ("\n... (truncated, " ++
          toString ((List.replicate 25 (["Inception"] : Row)).length - 20) ++ " more rows)"))) ∧
    query_database rowsEnv3 "SELECT Title FROM movies" =
      .ok (.records (List.replicate 3 (["Inception"] : Row)) none) :=
  ⟨by decide,
   ((query_truncates_at_20 rowsEnv25 "SELECT Title FROM movies" ["Title"]
      (List.replicate 25 ["Inception"]) rfl rfl rfl (by decide)).1 (by decide)).1,
   (query_truncates_at_20 rowsEnv3 "SELECT Title FROM movies" ["Title"]
      (List.replicate 3 ["Inception"]) rfl rfl rfl (by decide)).2 (by decide)⟩

/-- **C10.** A safe query on an existing database whose cursor yields zero
description columns produces the dedicated no-results message object, a
payload shape distinct from every records payload (in particular from an
empty records list). -/
theorem query_no_result_set (env : QueryEnv) (sql_query : String) (rows : List Row)
    (hsafe : is_query_safe sql_query = true) (hfile : env.fileExists = true)
    (hexec : env.exec sql_query = .ok [] rows) :
    query_database env sql_query = .ok (.message "Query executed, but no results to return.") ∧
    ∀ (rs : List Row) (note : Option String),
      QueryOutput.message "Query executed, but no results to return." ≠
        QueryOutput.records rs note := by
  constructor
  · simp [query_database, query_databaseT, hsafe, hfile, query_tryBody, hexec, query_handlers]
  · intro rs note h
    exact QueryOutput.noConfusion h

/-- Environment whose cursor has no description columns. -/
def noResultEnv : QueryEnv := ⟨true, fun _ => .ok [] []⟩

/-- Witness for **C10**: a no-result-set execution yields the message object,
not the empty records list. -/
theorem query_no_result_set_witness :
    query_database noResultEnv "SELECT 1" =
      .ok (.message "Query executed, but no results to return.") ∧
    QueryOutput.message "Query executed, but no results to return." ≠
      QueryOutput.records [] none :=
  ⟨(query_no_result_set noResultEnv "SELECT 1" [] rfl rfl rfl).1,
   (query_no_result_set noResultEnv "SELECT 1" [] rfl rfl rfl).2 [] none⟩

/-- Environment whose execution raises `sqlite3.Error`, as a missing table
does. -/
def connLeakEnv : QueryEnv := ⟨true, fun _ => .raise (.sqliteError "no such table: nope")⟩

/-- **C6 counterexample.** On the error return path the connection is *not*
closed: executing `SELECT * FROM nope` against a database without that table
opens the connection, the `except sqlite3.Error` clause returns the error
payload, and no `conn.close()` runs. -/
theorem conn_left_open_on_error_cex :
    query_connTrace connLeakEnv "SELECT * FROM nope" = ⟨true, false⟩ ∧
    query_database connLeakEnv "SELECT * FROM nope" =
      .ok (.error "An error occurred: no such table: nope") := ⟨rfl, rfl⟩

/-- **C6 amended.** For a safe query on an existing database: the connection
is opened and closed on the success and no-result-set paths, but when
execution raises, the call returns its error payload with the connection
still open. -/
theorem conn_closed_unless_exec_raises (env : QueryEnv) (sql_query : String)
    (hsafe : is_query_safe sql_query = true) (hfile : env.fileExists = true) :
    (∀ (description : List String) (rows : List Row),
      env.exec sql_query = .ok description rows →
      query_connTrace env sql_query = ⟨true, true⟩) ∧
    (∀ e, env.exec sql_query = .raise e →
      query_connTrace env sql_query = ⟨true, false⟩) := by
  constructor
  · intro description rows hexec
    have ht : (query_tryBody env sql_query).2 = ⟨true, true⟩ := by
      simp only [query_tryBody, hexec]
      split
      · rfl
      · split <;> rfl
    simp [query_connTrace, query_databaseT, hsafe, hfile, query_handlers_trace, ht]
  · intro e hexec
    cases e <;>
      simp [query_connTrace, query_databaseT, hsafe, hfile, query_tryBody, hexec, query_handlers]

/-- Environment whose execution succeeds with one row. -/
def okQueryEnv : QueryEnv := ⟨true, fun _ => .ok ["Title"] [["Inception"]]⟩

/-- Witness for **C6 amended**: the connection trace on a succeeding
execution versus a raising one. -/
theorem conn_closed_unless_exec_raises_witness :
    is_query_safe "SELECT Title FROM movies" = true ∧
    query_connTrace okQueryEnv "SELECT Title FROM movies" = ⟨true, true⟩ ∧
    query_connTrace connLeakEnv "SELECT Title FROM movies" = ⟨true, false⟩ :=
  ⟨rfl,
   (conn_closed_unless_exec_raises okQueryEnv "SELECT Title FROM movies" rfl rfl).1
     ["Title"] [["Inception"]] rfl,
   (conn_closed_unless_exec_raises connLeakEnv "SELECT Title FROM movies" rfl rfl).2
     (.sqliteError "no such table: nope") rfl⟩

/-- **C7.** With both secrets present, when the POST to the issue endpoint
returns HTTP 201 with fields `number = n` and `html_url = u`, the tool
returns the success payload: ticket id `"GH-" ++ n`, the same URL, the input
title, and the confirmation message. -/
theorem ticket_created_on_201 (env : TicketEnv) (title description token repo text : String)
    (n : Nat) (u : String)
    (htok : env.github_token = some token) (hrepo : env.github_repo = some repo)
    (hpost : env.post (apiUrl repo) token title description =
      .response 201 text (some n) (some u)) :
    create_support_ticket env title description =
      .ok (.success ("GH-" ++ toString n) u title
        ("Support ticket GH-" ++ toString n ++
         " has been successfully created. A human will review it at: " ++ u)) := by
  simp [create_support_ticket, create_support_ticketT, htok, hrepo, hpost, ticket_tryBody,
    ticket_handlers]

/-- Environment whose tracker answers 201 with `number = 42` and
`html_url = "http://x/42"`. -/
def ghEnv201 : TicketEnv :=
  ⟨some "tok", some "Kalibr1/capstone-project-chat-with-data",
   fun _ _ _ _ => .response 201 "" (some 42) (some "http://x/42")⟩

/-- Witness for **C7**: the simulated 201 response with number 42 yields the
`GH-42` success payload with the same URL. -/
theorem ticket_created_on_201_witness :
    ghEnv201.github_token = some "tok" ∧
    create_support_ticket ghEnv201 "Bug" "desc" =
      .ok (.success ("GH-" ++ toString 42) "http://x/42" "Bug"
        ("Support ticket GH-" ++ toString 42 ++
         " has been successfully created. A human will review it at: " ++ "http://x/42")) :=
  ⟨rfl, ticket_created_on_201 ghEnv201 "Bug" "desc" "tok"
    "Kalibr1/capstone-project-chat-with-data" "" 42 "http://x/42" rfl rfl rfl⟩

/-- **C8.** With secrets present: any non-201 response yields the error
payload carrying the status code and the raw response body, while a
network-level `RequestException` yields the dedicated network error payload,
and the two payloads are distinct. -/
theorem ticket_error_payloads (env₁ env₂ : TicketEnv) (title description : String)
    (token₁ repo₁ token₂ repo₂ : String) (status : Nat) (text emsg : String)
    (number : Option Nat) (html_url : Option String)
    (h1t : env₁.github_token = some token₁) (h1r : env₁.github_repo = some repo₁)
    (hstatus : status ≠ 201)
    (hpost₁ : env₁.post (apiUrl repo₁) token₁ title description =
      .response status text number html_url)
    (h2t : env₂.github_token = some token₂) (h2r : env₂.github_repo = some repo₂)
    (hpost₂ : env₂.post (apiUrl repo₂) token₂ title description =
      .raise (.requestException emsg)) :
    create_support_ticket env₁ title description =
      .ok (.errorDetails
        ("Failed to create ticket. GitHub API responded with status " ++ toString status ++ ".")
        text) ∧
    create_support_ticket env₂ title description =
      .ok (.error "Failed to create ticket: A network error occurred.") ∧
    TicketOutput.errorDetails
        ("Failed to create ticket. GitHub API responded with status " ++ toString status ++ ".")
        text ≠
      TicketOutput.error "Failed to create ticket: A network error occurred." := by
  refine ⟨?_, ?_, fun h => TicketOutput.noConfusion h⟩
  · simp [create_support_ticket, create_support_ticketT, h1t, h1r, hpost₁, ticket_tryBody,
      ticket_handlers, hstatus]
  · simp [create_support_ticket, create_support_ticketT, h2t, h2r, hpost₂, ticket_tryBody,
      ticket_handlers]

/-- Environment whose tracker rejects with HTTP 422. -/
def ghEnv422 : TicketEnv :=
  ⟨some "tok", some "o/r", fun _ _ _ _ => .response 422 "Validation Failed" none none⟩

/-- Environment whose POST raises a `RequestException`. -/
def ghEnvNet : TicketEnv :=
  ⟨some "tok", some "o/r", fun _ _ _ _ => .raise (.requestException "connection refused")⟩

/-- Witness for **C8**: a 422 rejection carries status 422 and the raw body;
a network failure yields the distinct network error payload. -/
theorem ticket_error_payloads_witness :
    (422 : Nat) ≠ 201 ∧
    create_support_ticket ghEnv422 "Bug" "desc" =
      .ok (.errorDetails
        ("Failed to create ticket. GitHub API responded with status " ++ toString 422 ++ ".")
        "Validation Failed") ∧
    create_support_ticket ghEnvNet "Bug" "desc" =
      .ok (.error "Failed to create ticket: A network error occurred.") :=
  ⟨by decide,
   (ticket_error_payloads ghEnv422 ghEnvNet "Bug" "desc" "tok" "o/r" "tok" "o/r" 422
     "Validation Failed" "connection refused" none none rfl rfl (by decide) rfl rfl rfl rfl).1,
   (ticket_error_payloads ghEnv422 ghEnvNet "Bug" "desc" "tok" "o/r" "tok" "o/r" 422
     "Validation Failed" "connection refused" none none rfl rfl (by decide) rfl rfl rfl rfl).2.1⟩

/-- **C9.** When either secret is missing, the tool returns the missing
configuration error payload and never issues the POST request. -/
theorem ticket_requires_secrets (env : TicketEnv) (title description : String)
    (h : env.github_token = none ∨ env.github_repo = none) :
    create_support_ticket env title description =
      .ok (.error "Failed to create ticket: Server is missing GitHub configuration.") ∧
    ticket_postIssued env title description = false := by
  have hnone : (env.github_token.isNone || env.github_repo.isNone) = true := by
    rcases h with h | h <;> simp [h]
  constructor
  · simp [create_support_ticket, create_support_ticketT, hnone]
  · simp [ticket_postIssued, create_support_ticketT, hnone]

/-- Environment with no secrets configured; its POST behaviour is never
reached. -/
def noSecretsEnv : TicketEnv :=
  ⟨none, none, fun _ _ _ _ => .response 201 "" (some 1) (some "u")⟩

/-- Witness for **C9**: with missing credentials,
`create_support_ticket "Bug" "desc"` errors without a network call. -/
theorem ticket_requires_secrets_witness :
    (noSecretsEnv.github_token = none ∨ noSecretsEnv.github_repo = none) ∧
    create_support_ticket noSecretsEnv "Bug" "desc" =
      .ok (.error "Failed to create ticket: Server is missing GitHub configuration.") ∧
    ticket_postIssued noSecretsEnv "Bug" "desc" = false :=
  ⟨Or.inl rfl,
   (ticket_requires_secrets noSecretsEnv "Bug" "desc" (Or.inl rfl)).1,
   (ticket_requires_secrets noSecretsEnv "Bug" "desc" (Or.inl rfl)).2⟩

/-- Model responses that request an unregistered tool twice before answering
with text. -/
def unknownToolOracle : Nat → Part
  | 0 => .functionCall "lookup_weather" []
  | 1 => .functionCall "lookup_weather" []
  | _ => .text "done"

/-- An agent environment whose tool backends are never exercised. -/
def idleAgentEnv : AgentEnv :=
  ⟨⟨false, fun _ => .raise .otherException⟩,
   ⟨none, none, fun _ _ _ _ => .raise .otherException⟩⟩

/-- **C4 counterexample.** After the model requests the unregistered tool
`lookup_weather`, the loop does not terminate in an error state after one
corrective message: in this run it sends *two* corrective messages (one per
unknown request) and then ends normally with the model's text answer. -/
theorem unknown_tool_does_not_end_loop_cex :
    toolNames.contains "lookup_weather" = false ∧
    agentLoop idleAgentEnv unknownToolOracle 0 10 [] =
      .finalText "done" [.corrective "lookup_weather", .corrective "lookup_weather"] :=
  ⟨rfl, rfl⟩

/-- **C4 amended.** When the model requests a tool name that is not in the
registry, the loop sends exactly one corrective message for that request and
continues with the model's next response (no error-state termination; the
loop ends only on a text part). -/
theorem unknown_tool_one_corrective_then_continue (env : AgentEnv) (oracle : Nat → Part)
    (i fuel : Nat) (sent : List SentMsg) (function_name : String)
    (args : List (String × String))
    (hcall : oracle i = .functionCall function_name args)
    (hunknown : toolNames.contains function_name = false) :
    agentLoop env oracle i (fuel + 1) sent =
      agentLoop env oracle (i + 1) fuel (sent ++ [.corrective function_name]) := by
  rw [agentLoop, hcall]
  exact if_neg (by simpa using hunknown)

/-- Witness for **C4 amended**: the first unknown-tool request adds one
corrective message and the loop proceeds to the model's next response. -/
theorem unknown_tool_one_corrective_then_continue_witness :
    unknownToolOracle 0 = .functionCall "lookup_weather" [] ∧
    toolNames.contains "lookup_weather" = false ∧
    agentLoop idleAgentEnv unknownToolOracle 0 10 [] =
      agentLoop idleAgentEnv unknownToolOracle 1 9 ([] ++ [.corrective "lookup_weather"]) :=
  ⟨rfl, rfl,
   unknown_tool_one_corrective_then_continue idleAgentEnv unknownToolOracle 0 9 []
     "lookup_weather" [] rfl rfl⟩

/-- **C5.** Any stored turn with role `"function"` is excluded from the
displayed chat, yet belongs to the history sent to the model on the next
turn (the session creates the model chat from everything before the freshly
appended user prompt). -/
theorem function_turns_hidden_but_in_history (messages : List ChatMsg) (m : ChatMsg)
    (prompt : String) (hmem : m ∈ messages) (hrole : m.role = "function") :
    m ∉ displayedMessages messages ∧
    m ∈ historyForModel (appendUserPrompt messages prompt) := by
  constructor
  · intro hdisp
    have hp := (List.mem_filter.mp hdisp).2
    rw [hrole] at hp
    simp at hp
  · have hdrop : (messages ++ [(⟨"user", prompt⟩ : ChatMsg)]).dropLast = messages := by
      simp
    rw [historyForModel, appendUserPrompt, hdrop]
    exact hmem

/-- Witness for **C5**: a concrete function-role turn is hidden from display
but present in the history sent with the next prompt. -/
theorem function_turns_hidden_but_in_history_witness :
    (⟨"function", "tool result"⟩ : ChatMsg) ∈
      [(⟨"model", "hi"⟩ : ChatMsg), ⟨"function", "tool result"⟩] ∧
    (⟨"function", "tool result"⟩ : ChatMsg).role = "function" ∧
    ((⟨"function", "tool result"⟩ : ChatMsg) ∉
      displayedMessages [(⟨"model", "hi"⟩ : ChatMsg), ⟨"function", "tool result"⟩] ∧
     (⟨"function", "tool result"⟩ : ChatMsg) ∈
      historyForModel (appendUserPrompt
        [(⟨"model", "hi"⟩ : ChatMsg), ⟨"function", "tool result"⟩] "next question")) :=
  ⟨by decide, rfl,
   function_turns_hidden_but_in_history
     [(⟨"model", "hi"⟩ : ChatMsg), ⟨"function", "tool result"⟩]
     ⟨"function", "tool result"⟩ "next question" (by decide) rfl⟩

end ChatWithData
